import Mathlib

/-!
Verification development for `src/filerename.py` (Image-file-renamer).

The Python script is shallowly embedded here:
* pure string routines (`parse_filename_date`, `check_mismatch`,
  `get_unique_filename`) become Lean functions on `String` / `List Char`;
* the filesystem is an explicit record of observation functions
  (`os.path.exists`, `os.path.isfile`, `os.path.getmtime`), and
  `os.rename` updates it pointwise;
* external collaborators (EXIF reader, clock) are parameters;
* Python exceptions become `Except` values.

Path functions follow POSIX `os.path` semantics (`normpath`, `basename`,
`dirname`, `splitext`, `join`).  The regex character class `\s` is modelled
by its ASCII members and `\d` by the ASCII digits, which is exact for every
string considered here.
-/

namespace FileRename

/-! ### Characters and fixed-width digit groups -/

/-- The character for the decimal digit `x` (meaningful for `x < 10`). -/
def digitChar (x : Nat) : Char := Char.ofNat (48 + x)

/-- Zero-padded fixed-width decimal rendering, most significant digit first.
For `n < 10^k` this is exactly Python's `'%0kd' % n` as used by
`strftime('%Y-%m-%d %H-%M-%S')`. -/
def padDigits : Nat → Nat → List Char
  | 0, _ => []
  | k+1, n => digitChar ((n / 10^k) % 10) :: padDigits k n

/-- Read exactly `k` ASCII digits from the front of the character list,
accumulating their value onto `acc`; models a `(\d{k})` regex group read by
`int(...)`.  Fails if a non-digit (or end of input) is hit. -/
def readFixedNat : Nat → Nat → List Char → Option (Nat × List Char)
  | 0, acc, cs => some (acc, cs)
  | _+1, _, [] => none
  | k+1, acc, c :: cs =>
    if c.isDigit then readFixedNat k (acc * 10 + (c.toNat - 48)) cs else none

/-- Consume one character satisfying `p`; models a one-character class. -/
def expectChar (p : Char → Bool) : List Char → Option (List Char)
  | [] => none
  | c :: cs => if p c then some cs else none

/-- The regex class `[\s_]` of pattern 1 (ASCII part of `\s`, plus `_`). -/
def isSep1 (c : Char) : Bool :=
  c = ' ' || c = '\t' || c = '\n' || c = '\x0d' || c = '\x0b' || c = '\x0c' || c = '_'

/-- The regex class `[-.]` of pattern 1. -/
def isSep2 (c : Char) : Bool := c = '-' || c = '.'

/-! ### Timestamps (`datetime.datetime`, naive, second precision) -/

/-- A naive timestamp, as produced by `datetime.datetime(y, m, d, h, mi, s)`. -/
structure DateTime where
  year : Nat
  month : Nat
  day : Nat
  hour : Nat
  minute : Nat
  second : Nat
deriving DecidableEq

/-- Gregorian leap-year rule (as in Python's `datetime`). -/
def isLeap (y : Nat) : Bool := (y % 4 == 0 && y % 100 != 0) || y % 400 == 0

/-- Number of days in month `m` of year `y` (for `1 ≤ m ≤ 12`). -/
def daysInMonth (y m : Nat) : Nat :=
  if m = 2 then (if isLeap y then 29 else 28)
  else if m = 4 ∨ m = 6 ∨ m = 9 ∨ m = 11 then 30
  else 31

/-- The argument check of the `datetime.datetime` constructor:
`MINYEAR = 1 ≤ year ≤ MAXYEAR = 9999`, valid month, day, and time fields. -/
def isValidDateTime (y m d h mi s : Nat) : Bool :=
  1 ≤ y && y ≤ 9999 && 1 ≤ m && m ≤ 12 && 1 ≤ d && d ≤ daysInMonth y m
    && h ≤ 23 && mi ≤ 59 && s ≤ 59

/-- `datetime.datetime(y, m, d, h, mi, s)` with `ValueError` as `none`. -/
def mkDateTime (y m d h mi s : Nat) : Option DateTime :=
  if isValidDateTime y m d h mi s then some ⟨y, m, d, h, mi, s⟩ else none

/-! ### The three filename patterns of `parse_filename_date` -/

/-- Pattern 1, `re.match` of
`^(\d{4})-(\d{2})-(\d{2})[\s_](\d{2})[-.](\d{2})[-.](\d{2})`:
anchored at the start only, trailing input after the seconds is ignored. -/
def matchPattern1 (cs : List Char) : Option (Nat × Nat × Nat × Nat × Nat × Nat) := do
  let (y, cs) ← readFixedNat 4 0 cs
  let cs ← expectChar (fun c => c = '-') cs
  let (m, cs) ← readFixedNat 2 0 cs
  let cs ← expectChar (fun c => c = '-') cs
  let (d, cs) ← readFixedNat 2 0 cs
  let cs ← expectChar isSep1 cs
  let (h, cs) ← readFixedNat 2 0 cs
  let cs ← expectChar isSep2 cs
  let (mi, cs) ← readFixedNat 2 0 cs
  let cs ← expectChar isSep2 cs
  let (s, _) ← readFixedNat 2 0 cs
  pure (y, m, d, h, mi, s)

/-- Pattern 2, `re.match` of `^(\d{4})(\d{2})(\d{2})_(\d{2})(\d{2})(\d{2})`. -/
def matchPattern2 (cs : List Char) : Option (Nat × Nat × Nat × Nat × Nat × Nat) := do
  let (y, cs) ← readFixedNat 4 0 cs
  let (m, cs) ← readFixedNat 2 0 cs
  let (d, cs) ← readFixedNat 2 0 cs
  let cs ← expectChar (fun c => c = '_') cs
  let (h, cs) ← readFixedNat 2 0 cs
  let (mi, cs) ← readFixedNat 2 0 cs
  let (s, _) ← readFixedNat 2 0 cs
  pure (y, m, d, h, mi, s)

/-- Pattern 3, `re.match` of `^(\d{4})-(\d{2})-(\d{2})$`; Python's `$` also
matches just before a single trailing newline. -/
def matchPattern3 (cs : List Char) : Option (Nat × Nat × Nat) := do
  let (y, cs) ← readFixedNat 4 0 cs
  let cs ← expectChar (fun c => c = '-') cs
  let (m, cs) ← readFixedNat 2 0 cs
  let cs ← expectChar (fun c => c = '-') cs
  let (d, cs) ← readFixedNat 2 0 cs
  if cs = [] ∨ cs = ['\n'] then pure (y, m, d) else none

/-- Rule 1 of `parse_filename_date`: pattern 1 plus the guarded
`datetime.datetime(...)` call (`ValueError` falls through as `none`). -/
def tryRule1 (cs : List Char) : Option DateTime :=
  (matchPattern1 cs).bind (fun g =>
    match g with
    | (y, m, d, h, mi, s) => mkDateTime y m d h mi s)

/-- Rule 2 of `parse_filename_date`. -/
def tryRule2 (cs : List Char) : Option DateTime :=
  (matchPattern2 cs).bind (fun g =>
    match g with
    | (y, m, d, h, mi, s) => mkDateTime y m d h mi s)

/-- Rule 3 of `parse_filename_date` (date only, midnight). -/
def tryRule3 (cs : List Char) : Option DateTime :=
  (matchPattern3 cs).bind (fun g =>
    match g with
    | (y, m, d) => mkDateTime y m d 0 0 0)

/-- Rules 2 and 3, the part of `parse_filename_date` after rule 1. -/
def parseRules23 (cs : List Char) : Option DateTime :=
  (tryRule2 cs).orElse (fun _ => tryRule3 cs)

/-- The rule cascade of `parse_filename_date` on the stripped base name:
rule 1, falling through to rule 2, then rule 3, else `none`. -/
def parse_base (cs : List Char) : Option DateTime :=
  (tryRule1 cs).orElse (fun _ => parseRules23 cs)

/-! ### POSIX path helpers (`os.path`) -/

/-- `os.path.basename` on a character list: everything after the last `/`. -/
def basenameL (cs : List Char) : List Char :=
  (cs.reverse.takeWhile (fun c => c ≠ '/')).reverse

/-- Index of the last occurrence of `c` in `cs` (Python `str.rfind`). -/
def rfindIdx (c : Char) (cs : List Char) : Option Nat :=
  (cs.reverse.findIdx? (fun x => x = c)).map (fun i => cs.length - 1 - i)

/-- `os.path.splitext` (CPython `genericpath._splitext` with POSIX `/`):
split at the last dot of the final component, unless that component consists
only of leading dots up to it. -/
def splitextP (p : List Char) : List Char × List Char :=
  let start : Nat := match rfindIdx '/' p with
    | some i => i + 1
    | none => 0
  match rfindIdx '.' p with
  | none => (p, [])
  | some dotIndex =>
    if start ≤ dotIndex ∧ ((p.drop start).take (dotIndex - start)).any (fun c => c ≠ '.')
    then (p.take dotIndex, p.drop dotIndex)
    else (p, [])

/-- The preprocessing of `parse_filename_date`:
`os.path.splitext(os.path.basename(filename))[0]`. -/
def stripBase (f : String) : List Char :=
  (splitextP (basenameL f.toList)).1

/-- `parse_filename_date(filename)` from `src/filerename.py`. -/
def parse_filename_date (f : String) : Option DateTime :=
  parse_base (stripBase f)

/-! ### Seconds arithmetic (`datetime` subtraction, `total_seconds`) -/

/-- Days of the proleptic Gregorian calendar strictly before year `y`. -/
def daysBeforeYear (y : Nat) : Nat :=
  365 * (y - 1) + (y - 1) / 4 - (y - 1) / 100 + (y - 1) / 400

/-- Days of year `y` strictly before month `m` (for `1 ≤ m ≤ 12`). -/
def daysBeforeMonth (y m : Nat) : Nat :=
  let base :=
    if m ≤ 1 then 0 else if m = 2 then 31 else if m = 3 then 59
    else if m = 4 then 90 else if m = 5 then 120 else if m = 6 then 151
    else if m = 7 then 181 else if m = 8 then 212 else if m = 9 then 243
    else if m = 10 then 273 else if m = 11 then 304 else 334
  base + (if 2 < m ∧ isLeap y then 1 else 0)

/-- A timestamp as a linear count of seconds; `datetime` subtraction is the
difference of these counts (exact integral arithmetic — the timestamps carry
no microseconds, so `timedelta.total_seconds()` is an integer here). -/
def toSecs (dt : DateTime) : Nat :=
  (daysBeforeYear dt.year + daysBeforeMonth dt.year dt.month + (dt.day - 1)) * 86400
    + dt.hour * 3600 + dt.minute * 60 + dt.second

/-- `abs((a - b).total_seconds())` for two timestamps. -/
def diffSecs (a b : DateTime) : Nat :=
  (((toSecs a : Int) - (toSecs b : Int))).natAbs

/-- `check_mismatch(filepath, tolerance_seconds)` from `src/filerename.py`
(the source defaults `tolerance_seconds` to 2).  The EXIF side
`read_date_taken` is an external collaborator passed in as `reader`.
Returns `(has_mismatch, filename_date, exif_date)` with `has_mismatch = none`
when either side is missing. -/
def check_mismatch (reader : String → Option DateTime) (filepath : String)
    (tolerance_seconds : Nat) : Option Bool × Option DateTime × Option DateTime :=
  let filename_date := parse_filename_date filepath
  let exif_date := reader filepath
  match filename_date, exif_date with
  | some a, some b => (some (decide (diffSecs a b > tolerance_seconds)), some a, some b)
  | _, _ => (none, filename_date, exif_date)

/-! ### More POSIX path functions -/

/-- Whether a path string starts with `/` (i.e. is absolute, POSIX). -/
def startsWithSlash (s : String) : Bool :=
  match s.toList with
  | '/' :: _ => true
  | _ => false

/-- Whether a path string ends with `/`. -/
def endsWithSlash (s : String) : Bool :=
  match s.toList.getLast? with
  | some '/' => true
  | _ => false

/-- Two-argument `os.path.join` (POSIX). -/
def joinPath (a b : String) : String :=
  if startsWithSlash b then b
  else if a = "" ∨ endsWithSlash a then a ++ b
  else a ++ "/" ++ b

/-- Python `str.split('/')` on a character list. -/
def splitSlash : List Char → List (List Char)
  | [] => [[]]
  | c :: cs =>
    match splitSlash cs, decide (c = '/') with
    | r, true => [] :: r
    | h :: t, false => (c :: h) :: t
    | [], false => [[c]]

/-- One step of `posixpath.normpath`'s component loop (components as
character lists; `[]` is the empty component). -/
def normStep (initAbs : Bool) (acc : List (List Char)) (comp : List Char) :
    List (List Char) :=
  if comp = [] ∨ comp = ['.'] then acc
  else if comp ≠ ['.', '.'] ∨ (initAbs = false ∧ acc = [])
      ∨ acc.getLast? = some ['.', '.'] then
    acc ++ [comp]
  else acc.dropLast

/-- `'/'.join(comps)`. -/
def joinComps : List (List Char) → List Char
  | [] => []
  | [c] => c
  | c :: cs => c ++ '/' :: joinComps cs

/-- `os.path.normpath` (POSIX): collapse separators and `.`, resolve `..`
lexically, preserve a leading `//` exactly when it is not `///`. -/
def normpath (p : String) : String :=
  if p = "" then "."
  else
    let cs := p.toList
    let initialSlashes : Nat :=
      match cs with
      | '/' :: '/' :: '/' :: _ => 1
      | '/' :: '/' :: _ => 2
      | '/' :: _ => 1
      | _ => 0
    let newComps := (splitSlash cs).foldl (normStep (initialSlashes > 0)) []
    let res := List.replicate initialSlashes '/' ++ joinComps newComps
    if res = [] then "." else String.mk res

/-- `os.path.abspath` relative to a working directory `cwd`. -/
def abspath (cwd p : String) : String :=
  normpath (if startsWithSlash p then p else joinPath cwd p)

/-- `os.path.dirname` (POSIX): the part before the last `/`, with trailing
slashes stripped unless the result is all slashes. -/
def dirnameStr (p : String) : String :=
  let cs := p.toList
  let head := cs.take (cs.length - (basenameL cs).length)
  if head = [] then ""
  else if head.all (fun c => c = '/') then String.mk head
  else String.mk ((head.reverse.dropWhile (fun c => c = '/')).reverse)

/-- `os.path.basename` on strings. -/
def basenameStr (p : String) : String := String.mk (basenameL p.toList)

/-- `os.path.splitext(p)[1]` on strings. -/
def extOf (p : String) : String := String.mk (splitextP p.toList).2

/-! ### Image extensions -/

/-- `IMAGE_EXTENSIONS` from `src/filerename.py`. -/
def IMAGE_EXTENSIONS : List String :=
  [".jpg", ".jpeg", ".png", ".tiff", ".tif",
   ".cr2", ".cr3", ".nef", ".arw", ".dng", ".orf", ".rw2", ".pef", ".srw", ".raf"]

/-- `is_image_file(filepath)`: lower-cased extension in `IMAGE_EXTENSIONS`. -/
def is_image_file (filepath : String) : Bool :=
  IMAGE_EXTENSIONS.contains (String.mk ((splitextP filepath.toList).2.map Char.toLower))

/-! ### Collision handling (`get_unique_filename`) -/

/-- Python `f"{n:03d}"`: zero-pad to width 3, plain decimal beyond. -/
def pad3 (n : Nat) : String :=
  if n < 1000 then String.mk (padDigits 3 n) else Nat.repr n

/-- The `while True` counter loop of `get_unique_filename`, with the number
of attempts still allowed as explicit fuel.  The source increments `counter`
and raises once `counter > 9999`, i.e. it tries counters `1..9999`; the loop
is entered with `fuel = 9999`. -/
def guf_loop (ex : String → Bool) (directory base_name extension : String)
    (counter fuel : Nat) : Except String String :=
  match fuel with
  | 0 => .error "Too many files with same timestamp"
  | f + 1 =>
    let new_name := base_name ++ "_" ++ pad3 counter ++ extension
    let new_path := joinPath directory new_name
    if ex new_path then guf_loop ex directory base_name extension (counter + 1) f
    else .ok new_path

/-- `get_unique_filename(directory, base_name, extension)`; `ex` is
`os.path.exists`.  The raised `Exception("Too many files with same
timestamp")` becomes an `Except.error`. -/
def get_unique_filename (ex : String → Bool) (directory base_name extension : String) :
    Except String String :=
  let new_path := joinPath directory (base_name ++ extension)
  if ex new_path then guf_loop ex directory base_name extension 1 9999
  else .ok new_path

/-! ### Filesystem state and configuration -/

/-- Filesystem observations used by the script: `os.path.exists`,
`os.path.isfile`, and the file's modified time already converted to a naive
timestamp (`datetime.datetime.fromtimestamp(os.path.getmtime(p))`). -/
structure FS where
  ex : String → Bool
  isfile : String → Bool
  mtime : String → DateTime
  /-- Whether `os.rename old new` raises `OSError` (permissions, path too
  long, concurrent deletion, ...) — an oracle for the environment. -/
  mvFail : String → String → Bool

/-- Program state: the filesystem plus the rename log (the external JSON
logger is modelled as the list of `(original, renamed)` absolute-path pairs
appended so far; the wall-clock entry timestamp is outside the model). -/
structure St where
  fs : FS
  log : List (String × String)

/-- The run options of the script: the global mode flags, the working
directory (for `os.path.abspath`), `__file__` as the interpreter received
it, and the external EXIF reader `read_date_taken`. -/
structure Config where
  useMetadata : Bool
  safeMode : Bool
  dryRun : Bool
  logMode : Bool
  cwd : String
  scriptFile : String
  readDateTaken : String → Option DateTime

/-- Why `rename_file_by_date` returned without renaming. -/
inductive SkipReason where
  | script
  | pathNotFound
  | notAFile
  | nonImage
  | noMetadataDate
  | collision
  | alreadyCorrect
deriving DecidableEq

/-- The per-file outcome of `rename_file_by_date`. -/
inductive Outcome where
  | skipped (reason : SkipReason)
  | preview (oldPath newPath : String)
  | renamed (oldPath newPath : String)
deriving DecidableEq

/-- Lines 273-287 of the source: pick the target date.  In metadata mode a
non-image file or a missing EXIF date is an early skip; otherwise the
modified time is used. -/
def getTargetDate (cfg : Config) (filepath : String) (fs : FS) : Sum SkipReason DateTime :=
  if cfg.useMetadata then
    if is_image_file filepath = false then .inl .nonImage
    else
      match cfg.readDateTaken filepath with
      | none => .inl .noMetadataDate
      | some dt => .inr dt
  else .inr (fs.mtime filepath)

/-- `strftime('%Y-%m-%d %H-%M-%S')` on a timestamp. -/
def fmtBase (dt : DateTime) : String :=
  String.mk (padDigits 4 dt.year ++ '-' :: padDigits 2 dt.month ++ '-' :: padDigits 2 dt.day
    ++ ' ' :: padDigits 2 dt.hour ++ '-' :: padDigits 2 dt.minute ++ '-' :: padDigits 2 dt.second)

/-- The candidate path `os.path.join(directory, base_name + extension)`
computed by `rename_file_by_date` for target date `dt`. -/
def candidatePath (filepath : String) (dt : DateTime) : String :=
  joinPath (dirnameStr filepath) (fmtBase dt ++ extOf (basenameStr filepath))

/-- Lines 300-303 of the source: the same-path check, after which the rename
would go ahead. -/
def finishResolve (filepath new_path : String) : Sum SkipReason (String × String) :=
  if normpath new_path = normpath filepath then .inl .alreadyCorrect
  else .inr (filepath, new_path)

/-- Lines 256-303 of `rename_file_by_date`: everything up to the decision,
none of which mutates state.  Returns the skip reason, or the `(old, new)`
pair that the rename step would act on; `Except.error` is the uncaught
exception from `get_unique_filename`. -/
def resolveRename (cfg : Config) (filepath0 : String) (fs : FS) :
    Except String (Sum SkipReason (String × String)) :=
  let filepath := normpath filepath0
  if filepath = abspath cfg.cwd cfg.scriptFile then .ok (.inl .script)
  else if fs.ex filepath = false then .ok (.inl .pathNotFound)
  else if fs.isfile filepath = false then .ok (.inl .notAFile)
  else
    match getTargetDate cfg filepath fs with
    | .inl r => .ok (.inl r)
    | .inr targetDate =>
      let directory := dirnameStr filepath
      let extension := extOf (basenameStr filepath)
      let base_name := fmtBase targetDate
      if cfg.safeMode then
        match get_unique_filename fs.ex directory base_name extension with
        | .error e => .error e
        | .ok new_path => .ok (finishResolve filepath new_path)
      else
        let new_path := joinPath directory (base_name ++ extension)
        if fs.ex new_path = true ∧ new_path ≠ filepath then .ok (.inl .collision)
        else .ok (finishResolve filepath new_path)

/-- A successful `os.rename(oldP, newP)`: move the file, carrying its
metadata. -/
def doRename (st : St) (oldP newP : String) : St :=
  { st with fs :=
    { ex := fun p => if p = newP then true else if p = oldP then false else st.fs.ex p
      isfile := fun p => if p = newP then st.fs.isfile oldP
                         else if p = oldP then false else st.fs.isfile p
      mtime := fun p => if p = newP then st.fs.mtime oldP else st.fs.mtime p
      mvFail := st.fs.mvFail } }

/-- `log_rename(original_path, new_path)`: append the absolute-path pair
when logging is on (the `log_mode` guard of the source). -/
def logStep (cfg : Config) (st : St) (oldP newP : String) : St :=
  if cfg.logMode then
    { st with log := st.log ++ [(abspath cfg.cwd oldP, abspath cfg.cwd newP)] }
  else st

/-- `rename_file_by_date(filepath, use_metadata)` from `src/filerename.py`:
resolve the decision, then either preview (dry-run) or move and log. -/
def rename_file_by_date (cfg : Config) (filepath0 : String) (st : St) :
    Except String Outcome × St :=
  match resolveRename cfg filepath0 st.fs with
  | .error e => (.error e, st)
  | .ok (.inl r) => (.ok (.skipped r), st)
  | .ok (.inr (filepath, new_path)) =>
    if cfg.dryRun then (.ok (.preview filepath new_path), st)
    else if st.fs.mvFail filepath new_path then (.error "OSError", st)
    else (.ok (.renamed filepath new_path),
          logStep cfg (doRename st filepath new_path) filepath new_path)

/-- The rename branch of `process_path` on a directory (lines 335-349): the
loop over the files enumerated by `os.walk`, which skips non-images in
metadata mode and otherwise calls `rename_file_by_date`.  The loop body has
no exception handler, so an `Except.error` from one file stops the whole
walk; the state reached so far and the error are returned. -/
def process_walk (cfg : Config) (files : List String) (st : St) : St × Option String :=
  match files with
  | [] => (st, none)
  | f :: rest =>
    if cfg.useMetadata = true ∧ is_image_file f = false then process_walk cfg rest st
    else
      match rename_file_by_date cfg f st with
      | (.ok _, st') => process_walk cfg rest st'
      | (.error e, st') => (st', some e)

/-! ### Concrete run scenarios

Small closed configurations and filesystem states used to instantiate the
theorems below. -/

/-- The timestamp 2026-01-20 14:30:00, used by the concrete scenarios. -/
def dt0 : DateTime := ⟨2026, 1, 20, 14, 30, 0⟩

/-- Modified-date rename, safe mode, no dry-run, no logging; the script
lives at `/x/s.py` and was invoked by its absolute path. -/
def cfgSafe : Config :=
  { useMetadata := false, safeMode := true, dryRun := false, logMode := false,
    cwd := "/x", scriptFile := "/x/s.py", readDateTaken := fun _ => none }

/-- As `cfgSafe`, but strict mode. -/
def cfgStrict : Config := { cfgSafe with safeMode := false }

/-- As `cfgStrict`, but dry-run. -/
def cfgDry : Config := { cfgStrict with dryRun := true }

/-- The script invoked as `python filerename.py` from `/home`, strict mode. -/
def cfgRel : Config := { cfgStrict with cwd := "/home", scriptFile := "filerename.py" }

/-- A filesystem holding exactly `files`, each a regular file with modified
time `dt0`; no move failures. -/
def fsOf (files : List String) : FS :=
  { ex := fun p => files.contains p
    isfile := fun p => files.contains p
    mtime := fun _ => dt0
    mvFail := fun _ _ => false }

/-- One file that is already named in the canonical form for `dt0`. -/
def stSelf : St := { fs := fsOf ["pics/2026-01-20 14-30-00.jpg"], log := [] }

/-- The script itself, seen by the walk under a relative path. -/
def stScript : St := { fs := fsOf ["filerename.py"], log := [] }

/-- Three files that all resolve to the same canonical base name. -/
def stTriple : St := { fs := fsOf ["d/x.jpg", "d/y.jpg", "d/z.jpg"], log := [] }

/-- A file plus another file already occupying its candidate name. -/
def stCollide : St := { fs := fsOf ["d/a.jpg", "d/2026-01-20 14-30-00.jpg"], log := [] }

/-- A single ordinary file. -/
def stSingle : St := { fs := fsOf ["d/a.jpg"], log := [] }

/-- Two files with distinct modified times; moving the first one fails with
`OSError` (e.g. a permission error), moving the second would succeed. -/
def stMoveFail : St :=
  { fs := { ex := fun p => p == "d/a.jpg" || p == "d/b.jpg"
            isfile := fun p => p == "d/a.jpg" || p == "d/b.jpg"
            mtime := fun p => if p = "d/a.jpg" then dt0 else ⟨2027, 1, 1, 0, 0, 0⟩
            mvFail := fun o _ => o == "d/a.jpg" }
    log := [] }

/-- An EXIF reader that reports `dt0` for every file. -/
def readerDt0 : String → Option DateTime := fun _ => some dt0

/-- The timestamp format written by `strftime` and read back by pattern 1,
with the separators as parameters: `YYYY-MM-DD<sep1>HH<sep2a>MM<sep2b>SS`. -/
def fmt1 (y m d h mi s : Nat) (sep1 sep2a sep2b : Char) : List Char :=
  padDigits 4 y ++ '-' :: padDigits 2 m ++ '-' :: padDigits 2 d
    ++ sep1 :: padDigits 2 h ++ sep2a :: padDigits 2 mi ++ sep2b :: padDigits 2 s

/-! ### Lemmas: fixed-width digit groups round-trip -/

theorem digitChar_isDigit {x : Nat} (hx : x < 10) : (digitChar x).isDigit = true := by
  interval_cases x <;> decide

theorem digitChar_sub48 {x : Nat} (hx : x < 10) : (digitChar x).toNat - 48 = x := by
  interval_cases x <;> decide

theorem mod_pow_succ_ten (k n : Nat) :
    n % 10 ^ (k + 1) = 10 ^ k * (n / 10 ^ k % 10) + n % 10 ^ k := by
  rw [Nat.pow_succ, ← Nat.mod_mul_right_div_self,
    ← Nat.mod_mod_of_dvd n (dvd_mul_right (10 ^ k) 10), Nat.div_add_mod]

theorem readFixedNat_padDigits :
    ∀ (k acc n : Nat) (rest : List Char),
      readFixedNat k acc (padDigits k n ++ rest) = some (acc * 10 ^ k + n % 10 ^ k, rest)
  | 0, acc, n, rest => by simp [padDigits, readFixedNat, Nat.mod_one]
  | k + 1, acc, n, rest => by
    have hx : n / 10 ^ k % 10 < 10 := Nat.mod_lt _ (by norm_num)
    rw [padDigits, List.cons_append, readFixedNat, if_pos (digitChar_isDigit hx),
      digitChar_sub48 hx, readFixedNat_padDigits k]
    congr 2
    rw [mod_pow_succ_ten, Nat.pow_succ]
    ring

theorem readFixedNat_padDigits_lt {k n : Nat} (acc : Nat) (rest : List Char)
    (hn : n < 10 ^ k) :
    readFixedNat k acc (padDigits k n ++ rest) = some (acc * 10 ^ k + n, rest) := by
  rw [readFixedNat_padDigits, Nat.mod_eq_of_lt hn]

theorem matchPattern1_fmt1 {y m d h mi s : Nat} {sep1 sep2a sep2b : Char}
    (suffix : List Char)
    (hy : y < 10000) (hm : m < 100) (hd : d < 100)
    (hh : h < 100) (hmi : mi < 100) (hs : s < 100)
    (h1 : isSep1 sep1 = true) (h2a : isSep2 sep2a = true) (h2b : isSep2 sep2b = true) :
    matchPattern1 (fmt1 y m d h mi s sep1 sep2a sep2b ++ suffix) =
      some (y, m, d, h, mi, s) := by
  have e4 : (10000 : Nat) = 10 ^ 4 := by norm_num
  have e2 : (100 : Nat) = 10 ^ 2 := by norm_num
  rw [e4] at hy
  rw [e2] at hm hd hh hmi hs
  simp only [fmt1, matchPattern1, List.append_assoc, List.cons_append, bind, Option.bind,
    readFixedNat_padDigits_lt 0 _ hy, readFixedNat_padDigits_lt 0 _ hm,
    readFixedNat_padDigits_lt 0 _ hd, readFixedNat_padDigits_lt 0 _ hh,
    readFixedNat_padDigits_lt 0 _ hmi, readFixedNat_padDigits_lt 0 _ hs,
    expectChar, h1, h2a, h2b, Nat.zero_mul, Nat.zero_add, decide_True, if_true, pure]

theorem daysInMonth_le (y m : Nat) : daysInMonth y m ≤ 31 := by
  unfold daysInMonth
  split
  · split <;> omega
  · split <;> omega

theorem isValidDateTime_bounds {y m d h mi s : Nat}
    (hv : isValidDateTime y m d h mi s = true) :
    y < 10000 ∧ m < 100 ∧ d < 100 ∧ h < 100 ∧ mi < 100 ∧ s < 100 := by
  have hdm := daysInMonth_le y m
  simp only [isValidDateTime, Bool.and_eq_true, decide_eq_true_eq] at hv
  omega

/-- Claim C4 (amended): for every string whose base name — after
`parse_filename_date` strips the directory part and the final dot-extension
— starts with a calendar-valid timestamp written as
`YYYY-MM-DD<sep1>HH<sep2>MM<sep2>SS` (`sep1` a space or underscore, the two
time separators each a hyphen or period), `parse_filename_date` returns
exactly the encoded timestamp, any trailing suffix after the seconds being
ignored. -/
theorem C4_parse_recovers_timestamp (fname : String)
    (y m d h mi s : Nat) (sep1 sep2a sep2b : Char) (suffix : List Char)
    (hvalid : isValidDateTime y m d h mi s = true)
    (h1 : sep1 = ' ' ∨ sep1 = '_')
    (h2a : sep2a = '-' ∨ sep2a = '.') (h2b : sep2b = '-' ∨ sep2b = '.')
    (hbase : stripBase fname = fmt1 y m d h mi s sep1 sep2a sep2b ++ suffix) :
    parse_filename_date fname = some ⟨y, m, d, h, mi, s⟩ := by
  obtain ⟨hy, hm, hd, hh, hmi, hs⟩ := isValidDateTime_bounds hvalid
  have hs1 : isSep1 sep1 = true := by rcases h1 with h | h <;> subst h <;> rfl
  have hs2a : isSep2 sep2a = true := by rcases h2a with h | h <;> subst h <;> rfl
  have hs2b : isSep2 sep2b = true := by rcases h2b with h | h <;> subst h <;> rfl
  rw [parse_filename_date, hbase, parse_base, tryRule1,
    matchPattern1_fmt1 suffix hy hm hd hh hmi hs hs1 hs2a hs2b]
  simp [mkDateTime, hvalid, Option.orElse]

/-- Claim C4 (counterexample): the string `2026-01-20 14.30.00` is exactly of
the form `YYYY-MM-DD HH.MM.SS` with a calendar-valid timestamp, yet
`parse_filename_date` returns `none` on it: the trailing `.00` is stripped
as if it were a file extension before matching. -/
theorem C4_extensionless_period_none :
    String.mk (fmt1 2026 1 20 14 30 0 ' ' '.' '.') = "2026-01-20 14.30.00" ∧
    isValidDateTime 2026 1 20 14 30 0 = true ∧
    parse_filename_date "2026-01-20 14.30.00" = none :=
  ⟨rfl, rfl, rfl⟩

/-- Witness for C4: a concrete filename with directory, period separators, a
`-3` counter suffix and a `.jpg` extension parses to the encoded timestamp. -/
theorem C4_parse_recovers_timestamp_witness :
    parse_filename_date "pics/2026-01-20 14.30.00-3.jpg" =
      some ⟨2026, 1, 20, 14, 30, 0⟩ :=
  C4_parse_recovers_timestamp "pics/2026-01-20 14.30.00-3.jpg"
    2026 1 20 14 30 0 ' ' '.' '.' ['-', '3']
    (by decide) (Or.inl rfl) (Or.inr rfl) (Or.inr rfl) (by decide)

/-- Claim C5: if pattern 1 matches but its digits are not a calendar-valid
timestamp, `parse_filename_date` falls through to rules 2 and 3 instead of
raising; concretely, `2026-13-40` parses to `none` (invalid calendar date,
all rules fall through), `2026-01-20` parses to midnight of that date, and
`random_name` parses to `none`. -/
theorem C5_invalid_calendar_falls_through :
    (∀ (cs : List Char) (y m d h mi s : Nat),
      matchPattern1 cs = some (y, m, d, h, mi, s) →
      isValidDateTime y m d h mi s = false →
      parse_base cs = parseRules23 cs) ∧
    parse_filename_date "2026-13-40" = none ∧
    parse_filename_date "2026-01-20" = some ⟨2026, 1, 20, 0, 0, 0⟩ ∧
    parse_filename_date "random_name" = none := by
  refine ⟨?_, rfl, rfl, rfl⟩
  intro cs y m d h mi s hmatch hval
  rw [parse_base, tryRule1, hmatch]
  simp [mkDateTime, hval, Option.orElse]

/-- Witness for C5: `2026-02-30 10-00-00` is matched by pattern 1 but
February 30 is not a valid date, so the parse equals what rules 2 and 3
give. -/
theorem C5_invalid_calendar_falls_through_witness :
    parse_base (String.toList "2026-02-30 10-00-00") =
      parseRules23 (String.toList "2026-02-30 10-00-00") :=
  C5_invalid_calendar_falls_through.1 (String.toList "2026-02-30 10-00-00")
    2026 2 30 10 0 0 (by decide) (by decide)

/-- Claim C10: `parse_filename_date` first strips the directory and the final
dot-extension and depends only on the remaining base string; hence the bare
name `2026-01-20 14.30.00` loses its `.00` to the extension-stripping and
parses as `none`, while `2026-01-20 14.30.00.jpg` parses to the encoded
timestamp. -/
theorem C10_strip_then_parse :
    (∀ f : String, parse_filename_date f = parse_base (stripBase f)) ∧
    (∀ f g : String, stripBase f = stripBase g →
      parse_filename_date f = parse_filename_date g) ∧
    parse_filename_date "2026-01-20 14.30.00" = none ∧
    parse_filename_date "2026-01-20 14.30.00.jpg" = some ⟨2026, 1, 20, 14, 30, 0⟩ := by
  refine ⟨fun f => rfl, ?_, rfl, rfl⟩
  intro f g h
  rw [parse_filename_date, parse_filename_date, h]

/-- Witness for C10: two names differing in directory and extension but with
the same base parse identically. -/
theorem C10_strip_then_parse_witness :
    parse_filename_date "a/x.jpg" = parse_filename_date "b/c/x.png" :=
  C10_strip_then_parse.2.1 "a/x.jpg" "b/c/x.png" (by decide)

/-- Claim C6: `check_mismatch` returns `NotComparable` (first component
`none`, with the two sides reported so the caller sees which was missing)
when either date is absent; otherwise the mismatch flag is exactly
"absolute difference of the timestamps strictly greater than the
tolerance", so with the default tolerance 2 a difference of exactly 2
seconds is a match and 3 seconds is a mismatch. -/
theorem C6_tolerance_boundary (reader : String → Option DateTime) (fp : String) (tol : Nat) :
    ((parse_filename_date fp = none ∨ reader fp = none) →
      check_mismatch reader fp tol = (none, parse_filename_date fp, reader fp)) ∧
    (∀ a b, parse_filename_date fp = some a → reader fp = some b →
      check_mismatch reader fp tol =
        (some (decide (diffSecs a b > tol)), some a, some b) ∧
      (diffSecs a b = 2 → check_mismatch reader fp 2 = (some false, some a, some b)) ∧
      (diffSecs a b = 3 → check_mismatch reader fp 2 = (some true, some a, some b))) := by
  constructor
  · intro h
    rcases hp : parse_filename_date fp with _ | a <;>
      rcases hr : reader fp with _ | b <;>
      simp_all [check_mismatch]
  · intro a b ha hb
    refine ⟨by simp [check_mismatch, ha, hb], ?_, ?_⟩ <;>
      intro hdiff <;> simp [check_mismatch, ha, hb, hdiff]

/-- Witness for C6: with the EXIF side fixed at 14:30:00, the filename date
14:30:02 (difference 2 s) is a match and 14:30:03 (difference 3 s) is a
mismatch, both at the default tolerance 2. -/
theorem C6_tolerance_boundary_witness :
    check_mismatch readerDt0 "2026-01-20 14-30-02.jpg" 2 =
      (some false, some ⟨2026, 1, 20, 14, 30, 2⟩, some dt0) ∧
    check_mismatch readerDt0 "2026-01-20 14-30-03.jpg" 2 =
      (some true, some ⟨2026, 1, 20, 14, 30, 3⟩, some dt0) :=
  ⟨((C6_tolerance_boundary readerDt0 "2026-01-20 14-30-02.jpg" 2).2
      ⟨2026, 1, 20, 14, 30, 2⟩ dt0 rfl rfl).2.1 (by decide),
   ((C6_tolerance_boundary readerDt0 "2026-01-20 14-30-03.jpg" 2).2
      ⟨2026, 1, 20, 14, 30, 3⟩ dt0 rfl rfl).2.2 (by decide)⟩

/-- Claim C1 (code bug): a file already named exactly in the canonical form
for its modified time is skipped as already-correct in strict mode, but in
safe mode `rename_file_by_date` runs `get_unique_filename` *before* the
same-path check, treats the file's own name as a collision, and renames the
file to `..._001.jpg` instead of skipping it. -/
theorem C1_safe_mode_renames_already_correct :
    (rename_file_by_date cfgStrict "pics/2026-01-20 14-30-00.jpg" stSelf).1 =
      .ok (.skipped .alreadyCorrect) ∧
    (rename_file_by_date cfgStrict "pics/2026-01-20 14-30-00.jpg" stSelf).2 = stSelf ∧
    fmtBase (stSelf.fs.mtime "pics/2026-01-20 14-30-00.jpg") = "2026-01-20 14-30-00" ∧
    (rename_file_by_date cfgSafe "pics/2026-01-20 14-30-00.jpg" stSelf).1 =
      .ok (.renamed "pics/2026-01-20 14-30-00.jpg" "pics/2026-01-20 14-30-00_001.jpg") ∧
    (rename_file_by_date cfgSafe "pics/2026-01-20 14-30-00.jpg" stSelf).2.fs.ex
      "pics/2026-01-20 14-30-00.jpg" = false :=
  ⟨rfl, rfl, rfl, rfl, rfl⟩

/-- Claim C3 (code bug): the self-exclusion check compares the merely
normalized (possibly relative) file path against the absolute script path,
so when the walk reaches the script under a relative path the script *is*
renamed, although its resolved absolute path equals the script's; under an
absolute path it is skipped. -/
theorem C3_relative_script_renamed :
    abspath cfgRel.cwd "filerename.py" = abspath cfgRel.cwd cfgRel.scriptFile ∧
    (rename_file_by_date cfgRel "filerename.py" stScript).1 =
      .ok (.renamed "filerename.py" "2026-01-20 14-30-00.py") ∧
    (rename_file_by_date cfgRel "/home/filerename.py" stScript).1 =
      .ok (.skipped .script) :=
  ⟨rfl, rfl, rfl⟩

/-- Claim C2 (amended): in a directory walk, files whose processing *returns*
(skips, warnings) let the loop continue, but a file whose processing raises
— an `ExhaustedCounter` from safe-mode collision resolution or an `OSError`
from the move — aborts the whole traversal: the loop has no per-file
exception handler, so the remaining files are not processed. -/
theorem C2_walk_aborts_on_error (cfg : Config) (f : String) (rest : List String) (st : St)
    (himg : ¬(cfg.useMetadata = true ∧ is_image_file f = false)) :
    (∀ o st', rename_file_by_date cfg f st = (.ok o, st') →
      process_walk cfg (f :: rest) st = process_walk cfg rest st') ∧
    (∀ e st', rename_file_by_date cfg f st = (.error e, st') →
      process_walk cfg (f :: rest) st = (st', some e)) := by
  constructor <;> intro x st' hx <;> rw [process_walk, if_neg himg, hx]

/-- Claim C2 (counterexample): with two files in a directory, a move failure
on the first aborts the walk with the error; the second file is left
unprocessed (still at its original name, its candidate name still free),
even though processing it alone would rename it. -/
theorem C2_failure_aborts_walk :
    (process_walk cfgStrict ["d/a.jpg", "d/b.jpg"] stMoveFail).2 = some "OSError" ∧
    (process_walk cfgStrict ["d/a.jpg", "d/b.jpg"] stMoveFail).1.fs.ex "d/b.jpg" = true ∧
    (process_walk cfgStrict ["d/a.jpg", "d/b.jpg"] stMoveFail).1.fs.ex
      "d/2027-01-01 00-00-00.jpg" = false ∧
    (rename_file_by_date cfgStrict "d/b.jpg" stMoveFail).1 =
      .ok (.renamed "d/b.jpg" "d/2027-01-01 00-00-00.jpg") :=
  ⟨rfl, rfl, rfl, rfl⟩

/-- Witness for C2 (amended): the concrete aborted walk of the
counterexample state, via the general abort theorem. -/
theorem C2_walk_aborts_on_error_witness :
    process_walk cfgStrict ["d/a.jpg", "d/b.jpg"] stMoveFail =
      (stMoveFail, some "OSError") :=
  (C2_walk_aborts_on_error cfgStrict "d/a.jpg" ["d/b.jpg"] stMoveFail
    (by decide)).2 "OSError" stMoveFail rfl

theorem guf_loop_succ (ex : String → Bool) (directory base_name extension : String)
    (counter f : Nat) :
    guf_loop ex directory base_name extension counter (f + 1) =
      if ex (joinPath directory (base_name ++ "_" ++ pad3 counter ++ extension)) then
        guf_loop ex directory base_name extension (counter + 1) f
      else .ok (joinPath directory (base_name ++ "_" ++ pad3 counter ++ extension)) := rfl

theorem guf_loop_all_taken (ex : String → Bool) (directory base_name extension : String) :
    ∀ (fuel counter : Nat),
      (∀ c, counter ≤ c → c < counter + fuel →
        ex (joinPath directory (base_name ++ "_" ++ pad3 c ++ extension)) = true) →
      guf_loop ex directory base_name extension counter fuel =
        .error "Too many files with same timestamp"
  | 0, _, _ => rfl
  | fuel + 1, counter, h => by
    rw [guf_loop_succ, h counter (Nat.le_refl _) (by omega), if_pos rfl]
    exact guf_loop_all_taken ex directory base_name extension fuel (counter + 1)
      (fun c hc1 hc2 => h c (by omega) (by omega))

/-- Claim C7: in safe mode, collision resolution returns the bare candidate
name when it is free; otherwise it appends `_NNN`, `NNN` zero-padded to 3
digits and starting at `001`, incrementing until the first free name; if
every counter up to 9999 is taken it fails with the exhausted-counter
error.  Concretely, walking three files that all resolve to the base name
`2026-01-20 14-30-00` yields `2026-01-20 14-30-00.jpg`, `..._001.jpg` and
`..._002.jpg` in processing order. -/
theorem C7_safe_mode_counter (ex : String → Bool) (directory base_name extension : String) :
    (ex (joinPath directory (base_name ++ extension)) = false →
      get_unique_filename ex directory base_name extension =
        .ok (joinPath directory (base_name ++ extension))) ∧
    (ex (joinPath directory (base_name ++ extension)) = true →
     ex (joinPath directory (base_name ++ "_" ++ pad3 1 ++ extension)) = false →
      get_unique_filename ex directory base_name extension =
        .ok (joinPath directory (base_name ++ "_" ++ pad3 1 ++ extension))) ∧
    (ex (joinPath directory (base_name ++ extension)) = true →
     ex (joinPath directory (base_name ++ "_" ++ pad3 1 ++ extension)) = true →
     ex (joinPath directory (base_name ++ "_" ++ pad3 2 ++ extension)) = false →
      get_unique_filename ex directory base_name extension =
        .ok (joinPath directory (base_name ++ "_" ++ pad3 2 ++ extension))) ∧
    ((∀ c, 1 ≤ c → c ≤ 9999 →
       ex (joinPath directory (base_name ++ "_" ++ pad3 c ++ extension)) = true) →
     ex (joinPath directory (base_name ++ extension)) = true →
      get_unique_filename ex directory base_name extension =
        .error "Too many files with same timestamp") ∧
    (pad3 1 = "001" ∧ pad3 2 = "002" ∧ pad3 999 = "999" ∧ pad3 1000 = "1000") ∧
    ((process_walk cfgSafe ["d/x.jpg", "d/y.jpg", "d/z.jpg"] stTriple).2 = none ∧
     (process_walk cfgSafe ["d/x.jpg", "d/y.jpg", "d/z.jpg"] stTriple).1.fs.ex
       "d/2026-01-20 14-30-00.jpg" = true ∧
     (process_walk cfgSafe ["d/x.jpg", "d/y.jpg", "d/z.jpg"] stTriple).1.fs.ex
       "d/2026-01-20 14-30-00_001.jpg" = true ∧
     (process_walk cfgSafe ["d/x.jpg", "d/y.jpg", "d/z.jpg"] stTriple).1.fs.ex
       "d/2026-01-20 14-30-00_002.jpg" = true) := by
  refine ⟨?_, ?_, ?_, ?_, ⟨rfl, rfl, rfl, rfl⟩, ⟨rfl, rfl, rfl, rfl⟩⟩
  · intro h0
    rw [get_unique_filename, h0]
    simp
  · intro h0 h1
    rw [get_unique_filename, h0, if_pos rfl,
      show (9999 : Nat) = 9998 + 1 from rfl, guf_loop_succ, h1]
    simp
  · intro h0 h1 h2
    rw [get_unique_filename, h0, if_pos rfl,
      show (9999 : Nat) = 9998 + 1 from rfl, guf_loop_succ, h1, if_pos rfl,
      show (9998 : Nat) = 9997 + 1 from rfl, guf_loop_succ, h2]
    simp
  · intro hall h0
    rw [get_unique_filename, h0, if_pos rfl]
    exact guf_loop_all_taken ex directory base_name extension 9999 1
      (fun c hc1 hc2 => hall c hc1 (by omega))

/-- Witness for C7: with no file present the bare name is returned; with
every name taken the counter exhausts into the error. -/
theorem C7_safe_mode_counter_witness :
    get_unique_filename (fun _ => false) "d" "2026-01-20 14-30-00" ".jpg" =
      .ok "d/2026-01-20 14-30-00.jpg" ∧
    get_unique_filename (fun _ => true) "d" "2026-01-20 14-30-00" ".jpg" =
      .error "Too many files with same timestamp" :=
  ⟨(C7_safe_mode_counter (fun _ => false) "d" "2026-01-20 14-30-00" ".jpg").1 rfl,
   (C7_safe_mode_counter (fun _ => true) "d" "2026-01-20 14-30-00" ".jpg").2.2.2.1
     (fun _ _ _ => rfl) rfl⟩

/-- Claim C8: in strict mode, when the candidate path exists and is not the
source file itself, the file is skipped with the collision reason: the
state (filesystem and log) is untouched and no exception is raised. -/
theorem C8_strict_collision_skips (cfg : Config) (st : St) (filepath0 : String) (dt : DateTime)
    (hsafe : cfg.safeMode = false)
    (hscript : normpath filepath0 ≠ abspath cfg.cwd cfg.scriptFile)
    (hex : st.fs.ex (normpath filepath0) = true)
    (hfile : st.fs.isfile (normpath filepath0) = true)
    (hdate : getTargetDate cfg (normpath filepath0) st.fs = .inr dt)
    (hcand : st.fs.ex (candidatePath (normpath filepath0) dt) = true)
    (hne : candidatePath (normpath filepath0) dt ≠ normpath filepath0) :
    rename_file_by_date cfg filepath0 st = (.ok (.skipped .collision), st) := by
  rw [rename_file_by_date, resolveRename, if_neg hscript, hex, hfile, hdate]
  simp only [Bool.true_eq_false, Bool.false_eq_true, if_false, hsafe]
  simp only [candidatePath] at hcand hne
  rw [if_pos ⟨hcand, hne⟩]

/-- Witness for C8: `d/a.jpg` maps to the occupied candidate
`d/2026-01-20 14-30-00.jpg` and is skipped with the state unchanged. -/
theorem C8_strict_collision_skips_witness :
    rename_file_by_date cfgStrict "d/a.jpg" stCollide =
      (.ok (.skipped .collision), stCollide) :=
  C8_strict_collision_skips cfgStrict stCollide "d/a.jpg" dt0
    rfl (by decide) rfl rfl rfl rfl (by decide)

theorem resolveRename_set_dryRun (cfg : Config) (b : Bool) (fp : String) (fs : FS) :
    resolveRename { cfg with dryRun := b } fp fs = resolveRename cfg fp fs := rfl

/-- Claim C9: with dry-run enabled, processing a file never changes the state
(no filesystem mutation, no log entry) and never reports a completed
rename, whatever the other settings; and whenever the same call without
dry-run would rename the file, the dry-run call returns exactly the preview
carrying that resulting path. -/
theorem C9_dry_run_pure (cfg : Config) (filepath0 : String) (st : St)
    (hdry : cfg.dryRun = true) :
    (rename_file_by_date cfg filepath0 st).2 = st ∧
    (∀ o n, (rename_file_by_date cfg filepath0 st).1 ≠ .ok (.renamed o n)) ∧
    (∀ o n,
      (rename_file_by_date { cfg with dryRun := false } filepath0 st).1 =
        .ok (.renamed o n) →
      rename_file_by_date cfg filepath0 st = (.ok (.preview o n), st)) := by
  have hres := resolveRename_set_dryRun cfg false filepath0 st.fs
  rcases h : resolveRename cfg filepath0 st.fs with e | rsk | ⟨fp, np⟩
  · refine ⟨?_, ?_, ?_⟩ <;>
      simp [rename_file_by_date, h, hres]
  · refine ⟨?_, ?_, ?_⟩ <;>
      simp [rename_file_by_date, h, hres]
  · refine ⟨?_, ?_, ?_⟩
    · simp [rename_file_by_date, h, hdry]
    · intro o n
      simp [rename_file_by_date, h, hdry]
    · intro o n hren
      simp only [rename_file_by_date, hres, h, Bool.false_eq_true, if_false] at hren
      by_cases hmv : st.fs.mvFail fp np = true <;> simp [hmv] at hren
      obtain ⟨ho, hn⟩ := hren
      subst ho
      subst hn
      simp [rename_file_by_date, h, hdry]

/-- Witness for C9: a dry run on `d/a.jpg` leaves the state unchanged,
renames nothing, and previews exactly the rename the wet run would do. -/
theorem C9_dry_run_pure_witness :
    (rename_file_by_date cfgDry "d/a.jpg" stSingle).2 = stSingle ∧
    (rename_file_by_date cfgDry "d/a.jpg" stSingle).1 ≠
      .ok (.renamed "d/a.jpg" "d/2026-01-20 14-30-00.jpg") ∧
    rename_file_by_date cfgDry "d/a.jpg" stSingle =
      (.ok (.preview "d/a.jpg" "d/2026-01-20 14-30-00.jpg"), stSingle) := by
  have h := C9_dry_run_pure cfgDry "d/a.jpg" stSingle rfl
  exact ⟨h.1, h.2.1 "d/a.jpg" "d/2026-01-20 14-30-00.jpg",
    h.2.2 "d/a.jpg" "d/2026-01-20 14-30-00.jpg" rfl⟩

end FileRename
